import Mathlib

/-!
# Verification of the twcai protocol-client core

A shallow embedding of the twcai Rust client library (a client-side
protocol adapter for an OpenAI-compatible conversational-AI HTTP
service).  Pure computations of the source — the HTTP-status error
classifier, request construction (URLs, headers, query strings), the
response-handling pipeline, and the serde encode/decode behaviour of
the wire DTOs — are translated to executable Lean definitions, and the
specified properties are proved about them.

JSON values are modelled by an inductive `Json` type; JSON numbers are
modelled as integers, which covers every numeric field of the claims
(timestamps and token counts).  Machine integers (`u16` status codes,
`u32` limits, `i64` timestamps) are modelled as `Nat`/`Int`; no
arithmetic in the modelled code can overflow them on protocol-valid
inputs.
-/

/-- A JSON value.  Objects are ordered association lists of fields,
mirroring the textual wire form. -/
inductive Json where
  | null : Json
  | bool (b : Bool) : Json
  | num (n : Int) : Json
  | str (s : String) : Json
  | arr (elems : List Json) : Json
  | obj (fields : List (String × Json)) : Json
deriving Repr

/-- The fields of a JSON object (empty for non-objects). -/
def Json.objFields : Json → List (String × Json)
  | .obj fs => fs
  | _ => []

/-- Whether a JSON value is a bare string. -/
def Json.isStr : Json → Bool
  | .str _ => true
  | _ => false

/-- Model of `reqwest::Error`: an opaque transport/decoding error
carrying a message.  The client never inspects it. -/
structure ReqwestError where
  message : String
deriving Repr, DecidableEq

/-- Model of `TwcError` from `src/error.rs`: the closed error taxonomy of the
library.  Error payloads of the `Http`/`Json`/`Url` variants are the
wrapped foreign errors, modelled by their message strings. -/
inductive TwcError where
  | Http (e : ReqwestError) : TwcError
  | Json (e : String) : TwcError
  | Url (e : String) : TwcError
  | Unauthorized : TwcError
  | NotFound (msg : String) : TwcError
  | Forbidden : TwcError
  | InvalidRequest (msg : String) : TwcError
  | ServerError (status : Nat) (message : String) : TwcError
  | Configuration (msg : String) : TwcError
  | Cancelled : TwcError
deriving Repr, DecidableEq

/-- The kind (constructor) of a `TwcError`, used to talk about which
member of the closed taxonomy an error value belongs to. -/
inductive TwcErrorKind where
  | http | json | url | unauthorized | notFound | forbidden
  | invalidRequest | serverError | configuration | cancelled
deriving Repr, DecidableEq

/-- Project a `TwcError` to its kind. -/
def TwcError.kind : TwcError → TwcErrorKind
  | .Http _ => .http
  | .Json _ => .json
  | .Url _ => .url
  | .Unauthorized => .unauthorized
  | .NotFound _ => .notFound
  | .Forbidden => .forbidden
  | .InvalidRequest _ => .invalidRequest
  | .ServerError _ _ => .serverError
  | .Configuration _ => .configuration
  | .Cancelled => .cancelled

/-- The kind of the error of a fallible result (`none` on success). -/
def errKind {α : Type} : Except TwcError α → Option TwcErrorKind
  | .ok _ => none
  | .error e => some e.kind

/-- Model of `TwcError::from_status` from `src/error.rs`: classify an HTTP
status code plus optional body message into a domain error.  The Rust
`match` checks its arms in order (401, 403, 404, `500..=599`, wildcard),
which the if-chain mirrors. -/
def TwcError.from_status (status : Nat) (message : Option String) : TwcError :=
  if status = 401 then .Unauthorized
  else if status = 403 then .Forbidden
  else if status = 404 then .NotFound (message.getD "Resource not found")
  else if 500 ≤ status ∧ status ≤ 599 then
    .ServerError status (message.getD "Internal server error")
  else .InvalidRequest (message.getD "Bad request")

/-- Model of `reqwest::StatusCode::is_success`: the 2xx range. -/
def statusIsSuccess (status : Nat) : Bool :=
  200 ≤ status ∧ status < 300

/-- Model of `handle_response` from `src/api/client.rs` (duplicated verbatim in
`src/api/conversations.rs` and `src/api/responses.rs`): on a 2xx status
the body-decoding outcome is returned, a decoding error being wrapped
as `TwcError::Http`; on a non-2xx status the best-effort body text is
fed to the classifier.  The transport layer is out of scope, so the
status, the typed-decoding outcome of the body, and the body-as-text
outcome are taken as inputs. -/
def handle_response {T : Type} (status : Nat) (decoded : Except ReqwestError T)
    (text : Option String) : Except TwcError T :=
  if statusIsSuccess status then
    match decoded with
    | .ok v => .ok v
    | .error e => .error (.Http e)
  else
    .error (TwcError.from_status status text)

/-- Outcome of one `send` on the transport: either a pure transport
failure (no status received), or a received response, given by its
status together with the decoding outcomes of its body. -/
inductive SendOutcome (T : Type) where
  | transportErr (e : ReqwestError) : SendOutcome T
  | received (status : Nat) (decoded : Except ReqwestError T)
      (text : Option String) : SendOutcome T

/-- The dispatcher's result: `.send().await.map_err(TwcError::Http)?`
followed by `handle_response` (every JSON endpoint in
`src/api/client.rs`, `src/api/conversations.rs`, `src/api/responses.rs`
follows exactly this pattern). -/
def dispatch {T : Type} : SendOutcome T → Except TwcError T
  | .transportErr e => .error (.Http e)
  | .received status decoded text => handle_response status decoded text

/-- Model of `ClientConfig` from `src/lib.rs`: the shared, immutable connection
context.  The `reqwest::Client` transport handle is out of scope (an
opaque capability); its only client-chosen datum, the timeout, is kept
in seconds. -/
structure ClientConfig where
  base_url : String
  token : String
  timeout_secs : Nat
deriving Repr, DecidableEq

/-- Model of `ClientConfig::auth_header` from `src/lib.rs`:
`format!("Bearer {}", self.token)`. -/
def ClientConfig.auth_header (c : ClientConfig) : String :=
  "Bearer " ++ c.token

/-- Model of `CloudAIClient` from `src/client.rs`. -/
structure CloudAIClient where
  config : ClientConfig
deriving Repr, DecidableEq

/-- Model of `ClientBuilder` from `src/client.rs`. -/
structure ClientBuilder where
  base_url : Option String
  token : Option String
  timeout : Option Nat
deriving Repr, DecidableEq

/-- Model of `ClientBuilder::default` from `src/client.rs`: production base
address preset, no token, 120-second timeout. -/
def ClientBuilder.defaultBuilder : ClientBuilder :=
  { base_url := some "https://agent.timeweb.cloud"
    token := none
    timeout := some 120 }

/-- Model of `ClientBuilder::new` (`Self::default()`). -/
def ClientBuilder.new : ClientBuilder := ClientBuilder.defaultBuilder

/-- Model of `ClientBuilder::base_url` setter. -/
def ClientBuilder.withBaseUrl (b : ClientBuilder) (url : String) : ClientBuilder :=
  { b with base_url := some url }

/-- Model of `ClientBuilder::token` setter. -/
def ClientBuilder.withToken (b : ClientBuilder) (t : String) : ClientBuilder :=
  { b with token := some t }

/-- Model of `ClientBuilder::build` from `src/client.rs`: fails with
`TwcError::Configuration` when the base URL or the token is absent
(base URL checked first), otherwise assembles the config.  The
`reqwest::Client::builder().build()` step constructs the local
transport handle from fixed defaults and cannot fail on them; the
transport being out of scope, it is modelled as succeeding.  `build`
performs no network activity: it is a pure function of the builder. -/
def ClientBuilder.build (b : ClientBuilder) : Except TwcError CloudAIClient :=
  match b.base_url with
  | none => .error (.Configuration "Base URL is required")
  | some base =>
    match b.token with
    | none => .error (.Configuration "Token is required")
    | some tok =>
      .ok { config := { base_url := base, token := tok
                        timeout_secs := b.timeout.getD 120 } }

/-- Model of `CloudAIClient::builder`. -/
def CloudAIClient.clientBuilder : ClientBuilder := ClientBuilder.new

/-- The pure description of one HTTP request as the client constructs
it: method, full URL, and the per-request headers attached by the
operation (the `ACCEPT: application/json` default header lives on the
transport handle and is not per-operation). -/
structure HttpRequest where
  method : String
  url : String
  headers : List (String × String)
deriving Repr, DecidableEq

/-- Model of `call_agent` request construction (`src/api/client.rs`): POST with
bearer auth and the fixed `x-proxy-source` client-identification
header. -/
def call_agent_request (cfg : ClientConfig) (agent_access_id : String) : HttpRequest :=
  { method := "POST"
    url := cfg.base_url ++ "/api/v1/cloud-ai/agents/" ++ agent_access_id ++ "/call"
    headers := [("authorization", cfg.auth_header), ("x-proxy-source", "twcai-rust")] }

/-- Model of `chat_completions` request construction (`src/api/client.rs`). -/
def chat_completions_request (cfg : ClientConfig) (agent_access_id : String) : HttpRequest :=
  { method := "POST"
    url := cfg.base_url ++ "/api/v1/cloud-ai/agents/" ++ agent_access_id
      ++ "/v1/chat/completions"
    headers := [("authorization", cfg.auth_header), ("x-proxy-source", "twcai-rust")] }

/-- Model of `text_completions` request construction (`src/api/client.rs`). -/
def text_completions_request (cfg : ClientConfig) (agent_access_id : String) : HttpRequest :=
  { method := "POST"
    url := cfg.base_url ++ "/api/v1/cloud-ai/agents/" ++ agent_access_id
      ++ "/v1/completions"
    headers := [("authorization", cfg.auth_header), ("x-proxy-source", "twcai-rust")] }

/-- Model of `list_models` request construction (`src/api/client.rs`): GET with
bearer auth only — the source attaches no `x-proxy-source` header
here. -/
def list_models_request (cfg : ClientConfig) (agent_access_id : String) : HttpRequest :=
  { method := "GET"
    url := cfg.base_url ++ "/api/v1/cloud-ai/agents/" ++ agent_access_id ++ "/v1/models"
    headers := [("authorization", cfg.auth_header)] }

/-- Model of `get_embed_code` request construction (`src/api/client.rs`): GET
with caller-supplied `referer`/`origin` headers, no authorization
header, and a `?collapsed=<bool>` query suffix exactly when the
`collapsed` argument is present (`format!("?collapsed={}", collapsed)`,
Rust's `Display` for `bool` printing `true`/`false`). -/
def get_embed_code_request (cfg : ClientConfig) (agent_access_id : String)
    (collapsed : Option Bool) (referer origin : String) : HttpRequest :=
  { method := "GET"
    url :=
      (match collapsed with
       | none => cfg.base_url ++ "/api/v1/cloud-ai/agents/" ++ agent_access_id ++ "/embed.js"
       | some b => cfg.base_url ++ "/api/v1/cloud-ai/agents/" ++ agent_access_id ++ "/embed.js"
           ++ "?collapsed=" ++ (if b then "true" else "false"))
    headers := [("referer", referer), ("origin", origin)] }

/-- Model of `create_conversation` request construction
(`src/api/conversations.rs`): POST with bearer auth only — the source
attaches no `x-proxy-source` header on any conversations operation. -/
def create_conversation_request (cfg : ClientConfig) (agent_access_id : String) : HttpRequest :=
  { method := "POST"
    url := cfg.base_url ++ "/api/v1/cloud-ai/agents/" ++ agent_access_id
      ++ "/v1/conversations"
    headers := [("authorization", cfg.auth_header)] }

/-- Model of `delete_conversation` request construction
(`src/api/conversations.rs`). -/
def delete_conversation_request (cfg : ClientConfig)
    (agent_access_id conversation_id : String) : HttpRequest :=
  { method := "DELETE"
    url := cfg.base_url ++ "/api/v1/cloud-ai/agents/" ++ agent_access_id
      ++ "/v1/conversations/" ++ conversation_id
    headers := [("authorization", cfg.auth_header)] }

/-- Model of `create_response` request construction (`src/api/responses.rs`):
bearer auth only, no `x-proxy-source`. -/
def create_response_request (cfg : ClientConfig) (agent_access_id : String) : HttpRequest :=
  { method := "POST"
    url := cfg.base_url ++ "/api/v1/cloud-ai/agents/" ++ agent_access_id
      ++ "/v1/responses"
    headers := [("authorization", cfg.auth_header)] }

/-- Model of `delete_response` request construction (`src/api/responses.rs`). -/
def delete_response_request (cfg : ClientConfig)
    (agent_access_id response_id : String) : HttpRequest :=
  { method := "DELETE"
    url := cfg.base_url ++ "/api/v1/cloud-ai/agents/" ++ agent_access_id
      ++ "/v1/responses/" ++ response_id
    headers := [("authorization", cfg.auth_header)] }

/-- UTF-8 encoding of one code point, as a list of byte values. -/
def utf8Bytes (c : Char) : List Nat :=
  let n := c.toNat
  if n < 0x80 then [n]
  else if n < 0x800 then [0xC0 + n / 0x40, 0x80 + n % 0x40]
  else if n < 0x10000 then
    [0xE0 + n / 0x1000, 0x80 + (n / 0x40) % 0x40, 0x80 + n % 0x40]
  else
    [0xF0 + n / 0x40000, 0x80 + (n / 0x1000) % 0x40, 0x80 + (n / 0x40) % 0x40,
     0x80 + n % 0x40]

/-- Upper-case hexadecimal digit. -/
def hexUpper (n : Nat) : Char :=
  if n < 10 then Char.ofNat (48 + n) else Char.ofNat (55 + n)

/-- Model of `form_urlencoded` byte serialization (used by `serde_urlencoded`):
ASCII alphanumerics and `*`, `-`, `.`, `_` pass through, space becomes
`+`, every other byte is percent-encoded with upper-case hex. -/
def formUrlencodeByte (n : Nat) : String :=
  if (48 ≤ n ∧ n ≤ 57) ∨ (65 ≤ n ∧ n ≤ 90) ∨ (97 ≤ n ∧ n ≤ 122)
      ∨ n = 42 ∨ n = 45 ∨ n = 46 ∨ n = 95 then
    String.singleton (Char.ofNat n)
  else if n = 32 then "+"
  else "%" ++ String.singleton (hexUpper (n / 16)) ++ String.singleton (hexUpper (n % 16))

/-- Model of `form_urlencoded` serialization of a string: percent-encode its
UTF-8 bytes. -/
def formUrlencode (s : String) : String :=
  String.join (s.data.map (fun c => String.join ((utf8Bytes c).map formUrlencodeByte)))

/-- Model of `ListItemsQuery` from `src/types/conversation.rs`: query
parameters for listing conversation items.  Every field is optional
and `skip_serializing_if = "Option::is_none"`. -/
structure ListItemsQuery where
  after : Option String
  «include» : Option (List String)
  limit : Option Nat
  order : Option String
deriving Repr, DecidableEq

/-- Model of `ListItemsQuery::default`. -/
def ListItemsQuery.defaultQuery : ListItemsQuery :=
  { after := none, «include» := none, limit := none, order := none }

/-- Model of `serde_urlencoded::to_string` applied to a `ListItemsQuery`.
Fields are serialized in declaration order (`after`, `include`,
`limit`, `order`); `None` fields are skipped; present scalar fields
become `key=value` pairs joined by `&`, both sides form-urlencoded.
`serde_urlencoded`'s pair-value serializer supports only scalar
values: a present `Vec` field (`include`) makes serialization fail
with a custom "unsupported value" error, so the whole call returns
`Err`. -/
def ListItemsQuery.urlencode (q : ListItemsQuery) : Except String String :=
  if q.«include».isSome then .error "unsupported value"
  else
    let pairs : List (String × String) :=
      (match q.after with | none => [] | some a => [("after", a)])
      ++ (match q.limit with | none => [] | some l => [("limit", toString l)])
      ++ (match q.order with | none => [] | some o => [("order", o)])
    .ok (String.intercalate "&"
      (pairs.map (fun p => formUrlencode p.1 ++ "=" ++ formUrlencode p.2)))

/-- URL construction of `list_conversation_items`
(`src/api/conversations.rs`): start from the items path; if a query
value is supplied, serialize it with `serde_urlencoded`, mapping a
serialization error to `TwcError::InvalidRequest(e.to_string())` (the
operation then returns that error without sending anything); append
`?` plus the query string only when the query string is non-empty. -/
def list_conversation_items_url (cfg : ClientConfig)
    (agent_access_id conversation_id : String)
    (query : Option ListItemsQuery) : Except TwcError String :=
  let base := cfg.base_url ++ "/api/v1/cloud-ai/agents/" ++ agent_access_id
    ++ "/v1/conversations/" ++ conversation_id ++ "/items"
  match query with
  | none => .ok base
  | some q =>
    match q.urlencode with
    | .error e => .error (.InvalidRequest e)
    | .ok qs => .ok (if qs = "" then base else base ++ "?" ++ qs)

/-- Success-path handling of `get_embed_code` (`src/api/client.rs`):
on a 2xx status the raw body text is returned as-is (no JSON
decoding); otherwise the status is classified with no body message
(`from_status(status, None)`). -/
def get_embed_code_handle (status : Nat) (body : String) : Except TwcError String :=
  if statusIsSuccess status then .ok body
  else .error (TwcError.from_status status none)

/-- Response handling of `delete_response` (`src/api/responses.rs`):
success (with no body decoded) when the status is 2xx or 204,
otherwise the classified error with no body message. -/
def delete_response_handle (status : Nat) : Except TwcError Unit :=
  if statusIsSuccess status || status == 204 then .ok ()
  else .error (TwcError.from_status status none)

/-- Decode a JSON value as a string (`serde` for `String`). -/
def Json.asStr : Json → Option String
  | .str s => some s
  | _ => none

/-- Decode a JSON value as an `i64` (`serde` for `i64`; integral
numbers only, which the `Int` model already enforces). -/
def Json.asInt : Json → Option Int
  | .num n => some n
  | _ => none

/-- Decode a JSON value as a `u32` (`serde` rejects negatives). -/
def Json.asNat : Json → Option Nat
  | .num n => if n < 0 then none else some n.toNat
  | _ => none

/-- Model of `Conversation` from `src/types/conversation.rs`.  `metadata` is
`Option<Value>` with `skip_serializing_if = "Option::is_none"`. -/
structure Conversation where
  id : String
  object : String
  created_at : Int
  metadata : Option Json
deriving Repr

/-- Model of `serde` deserialization of `Conversation` from a JSON value:
every named non-`Option` field must be present with the right type,
`metadata` is absent or `null` ↦ `none`, unknown fields are ignored
(serde's default). -/
def decodeConversation (j : Json) : Option Conversation :=
  match j with
  | .obj fs => do
    let id ← fs.lookup "id" >>= Json.asStr
    let object ← fs.lookup "object" >>= Json.asStr
    let created_at ← fs.lookup "created_at" >>= Json.asInt
    let metadata : Option Json :=
      match fs.lookup "metadata" with
      | none => none
      | some .null => none
      | some v => some v
    some { id := id, object := object, created_at := created_at, metadata := metadata }
  | _ => none

/-- Model of `serde` serialization of `Conversation`: named fields in
declaration order, `metadata` skipped when `none`. -/
def encodeConversation (c : Conversation) : Json :=
  .obj ([("id", .str c.id), ("object", .str c.object),
         ("created_at", .num c.created_at)]
    ++ (match c.metadata with | none => [] | some m => [("metadata", m)]))

/-- Model of `ConversationDeleted` from `src/types/conversation.rs`: the
deletion-confirmation object returned by `delete_conversation`. -/
structure ConversationDeleted where
  id : String
  object : String
  deleted : Bool
deriving Repr, DecidableEq

/-- Model of `serde` serialization of `ConversationDeleted`. -/
def encodeConversationDeleted (d : ConversationDeleted) : Json :=
  .obj [("id", .str d.id), ("object", .str d.object), ("deleted", .bool d.deleted)]

/-- Result of `delete_conversation_item` (`src/api/conversations.rs`)
as a function of the received status and body: `handle_response`
specialised to `Conversation` — on 2xx the body is decoded as a
`Conversation` (the decoding error being wrapped as `TwcError::Http`),
on non-2xx the status is classified with the body text. -/
def delete_conversation_item_result (status : Nat) (body : Json)
    (text : Option String) : Except TwcError Conversation :=
  if statusIsSuccess status then
    match decodeConversation body with
    | some c => .ok c
    | none => .error (.Http { message := "error decoding response body" })
  else .error (TwcError.from_status status text)

/-- Model of `ResponseUsage` from `src/types/response.rs`. -/
structure ResponseUsage where
  prompt_tokens : Nat
  completion_tokens : Nat
  total_tokens : Nat
deriving Repr, DecidableEq

/-- Model of `serde` deserialization of `ResponseUsage`. -/
def decodeResponseUsage (j : Json) : Option ResponseUsage :=
  match j with
  | .obj fs => do
    let pt ← fs.lookup "prompt_tokens" >>= Json.asNat
    let ct ← fs.lookup "completion_tokens" >>= Json.asNat
    let tt ← fs.lookup "total_tokens" >>= Json.asNat
    some { prompt_tokens := pt, completion_tokens := ct, total_tokens := tt }
  | _ => none

/-- Model of `serde` serialization of `ResponseUsage`. -/
def encodeResponseUsage (u : ResponseUsage) : Json :=
  .obj [("prompt_tokens", .num u.prompt_tokens),
        ("completion_tokens", .num u.completion_tokens),
        ("total_tokens", .num u.total_tokens)]

/-- Model of `Response` from `src/types/response.rs`: six named fields plus
`#[serde(flatten)] extra: Value`, the open extension bag collecting
every field not consumed by a named field. -/
structure Response where
  id : String
  object : String
  created_at : Int
  model : String
  status : String
  usage : ResponseUsage
  extra : List (String × Json)
deriving Repr

/-- The field names modeled explicitly by `Response`. -/
def modeledResponseFields : List String :=
  ["id", "object", "created_at", "model", "status", "usage"]

/-- Model of `serde` deserialization of `Response`: the named fields are
consumed by name, and the remaining fields of the object land verbatim
in the flattened `extra` bag. -/
def decodeResponse (j : Json) : Option Response :=
  match j with
  | .obj fs => do
    let id ← fs.lookup "id" >>= Json.asStr
    let object ← fs.lookup "object" >>= Json.asStr
    let created_at ← fs.lookup "created_at" >>= Json.asInt
    let model ← fs.lookup "model" >>= Json.asStr
    let status ← fs.lookup "status" >>= Json.asStr
    let usage ← fs.lookup "usage" >>= decodeResponseUsage
    some { id := id, object := object, created_at := created_at, model := model
           status := status, usage := usage
           extra := fs.filter (fun p => !(modeledResponseFields.contains p.1)) }
  | _ => none

/-- Model of `serde` serialization of `Response`: named fields in declaration
order, then the flattened `extra` entries inlined. -/
def encodeResponse (r : Response) : Json :=
  .obj ([("id", .str r.id), ("object", .str r.object),
         ("created_at", .num r.created_at), ("model", .str r.model),
         ("status", .str r.status), ("usage", encodeResponseUsage r.usage)]
    ++ r.extra)

/-- Model of `TextContent` from `src/types/common.rs` (`type` field renamed to
`content_type` in Rust, serialized under the key `"type"`). -/
structure TextContent where
  content_type : String
  text : String
deriving Repr, DecidableEq

/-- Model of `ImageUrl` from `src/types/common.rs`.  `detail` has no
`skip_serializing_if`, so `None` serializes as `null`. -/
structure ImageUrl where
  url : String
  detail : Option String
deriving Repr, DecidableEq

/-- Model of `ImageUrlContent` from `src/types/common.rs`. -/
structure ImageUrlContent where
  content_type : String
  image_url : ImageUrl
deriving Repr, DecidableEq

/-- Model of `InputAudio` from `src/types/common.rs`. -/
structure InputAudio where
  data : String
  format : String
deriving Repr, DecidableEq

/-- Model of `InputAudioContent` from `src/types/common.rs`. -/
structure InputAudioContent where
  content_type : String
  input_audio : InputAudio
deriving Repr, DecidableEq

/-- Model of `FileContent` from `src/types/common.rs` (`file` is an opaque
`serde_json::Value`). -/
structure FileContent where
  content_type : String
  file : Json
deriving Repr

/-- Model of `RefusalContent` from `src/types/common.rs`. -/
structure RefusalContent where
  content_type : String
  refusal : String
deriving Repr, DecidableEq

/-- Modelled from the spec: `ContentItem`, the tagged union over the
multimodal content payloads, lives in `src/types/chat.rs`, which is
declared in `src/types/mod.rs` but absent from the sources.  Its
variants and payloads follow the spec's content model (§3) and the
payload structs of `src/types/common.rs`; the integration tests
construct `ContentItem::Text`/`ContentItem::ImageUrl` with exactly
these payloads. -/
inductive ContentItem where
  | Text (c : TextContent) : ContentItem
  | ImageUrl (c : ImageUrlContent) : ContentItem
  | InputAudio (c : InputAudioContent) : ContentItem
  | File (c : FileContent) : ContentItem
  | Refusal (c : RefusalContent) : ContentItem
deriving Repr

/-- Modelled from the spec: encoding of one `ContentItem` — each
variant serializes its payload struct, the discriminant string living
in the payload's `content_type` field under the wire key `"type"` and
never omitted. -/
def encodeContentItem : ContentItem → Json
  | .Text c => .obj [("type", .str c.content_type), ("text", .str c.text)]
  | .ImageUrl c =>
    .obj [("type", .str c.content_type),
          ("image_url", .obj [("url", .str c.image_url.url),
            ("detail", match c.image_url.detail with
                       | none => .null
                       | some d => .str d)])]
  | .InputAudio c =>
    .obj [("type", .str c.content_type),
          ("input_audio", .obj [("data", .str c.input_audio.data),
                                ("format", .str c.input_audio.format)])]
  | .File c => .obj [("type", .str c.content_type), ("file", c.file)]
  | .Refusal c => .obj [("type", .str c.content_type), ("refusal", .str c.refusal)]

/-- Modelled from the spec: `ChatContent` from the missing
`src/types/chat.rs` — the untagged union of a plain string and an
ordered sequence of `ContentItem` (the `Text`/`Array` variant names
appear in the integration tests). -/
inductive ChatContent where
  | Text (s : String) : ChatContent
  | Array (items : List ContentItem) : ChatContent
deriving Repr

/-- Modelled from the spec: encoding of `ChatContent` — the string
variant encodes as a bare JSON string, the array variant as the JSON
array of the per-item encodings (untagged; the shape depends on the
populated variant). -/
def encodeChatContent : ChatContent → Json
  | .Text s => .str s
  | .Array items => .arr (items.map encodeContentItem)

/-- Demo configuration used by concrete counterexamples. -/
def cfgDemo : ClientConfig :=
  { base_url := "https://agent.timeweb.cloud", token := "tok", timeout_secs := 120 }

/-- Demo `reqwest` body-decoding error used by concrete instances. -/
def eDemo : ReqwestError := { message := "error decoding response body" }

example : TwcError.from_status 401 (some "x") = .Unauthorized := by decide
example : TwcError.from_status 404 none = .NotFound "Resource not found" := by decide
example : TwcError.from_status 500 (some "boom") = .ServerError 500 "boom" := by decide
example : TwcError.from_status 402 none = .InvalidRequest "Bad request" := by decide
example : handle_response 404 (Except.ok (0 : Nat)) none
    = Except.error (.NotFound "Resource not found") := rfl

/-- C1: `TwcError::from_status` classifies every HTTP status and
optional body message with the stated precedence — 401 ↦
`Unauthorized`, 403 ↦ `Forbidden`, 404 ↦ `NotFound`, 500–599 ↦
`ServerError` carrying the numeric status, every other non-2xx status
↦ `InvalidRequest` — a present body message becoming the error's
message and an absent one falling back to the fixed defaults
`"Resource not found"`, `"Internal server error"`, `"Bad request"`. -/
theorem c1_from_status_classification (s : Nat) (m : Option String) :
    TwcError.from_status 401 m = .Unauthorized ∧
    TwcError.from_status 403 m = .Forbidden ∧
    TwcError.from_status 404 m = .NotFound (m.getD "Resource not found") ∧
    (500 ≤ s ∧ s ≤ 599 →
      TwcError.from_status s m = .ServerError s (m.getD "Internal server error")) ∧
    (¬(200 ≤ s ∧ s < 300) → s ≠ 401 → s ≠ 403 → s ≠ 404 → ¬(500 ≤ s ∧ s ≤ 599) →
      TwcError.from_status s m = .InvalidRequest (m.getD "Bad request")) := by
  refine ⟨rfl, rfl, rfl, ?_, ?_⟩
  · intro h
    simp only [TwcError.from_status]
    split_ifs with h1 h2 h3 <;> first | rfl | omega
  · intro _ h1 h2 h3 h4
    simp only [TwcError.from_status]
    split_ifs <;> first | rfl | omega

/-- C1 witness: the classifier evaluated at the spec's concrete
examples. -/
theorem c1_from_status_classification_witness :
    TwcError.from_status 500 (some "boom") = .ServerError 500 "boom" ∧
    TwcError.from_status 402 none = .InvalidRequest "Bad request" :=
  ⟨(c1_from_status_classification 500 (some "boom")).2.2.2.1 (by omega),
   (c1_from_status_classification 402 none).2.2.2.2
     (by omega) (by omega) (by omega) (by omega) (by omega)⟩

/-- C2: encoding a `ChatContent` string variant yields a bare JSON
string; encoding the array variant yields the JSON array of the
per-item encodings; in particular a one-element array content encodes
as a one-element JSON array and is never collapsed to a bare
string. -/
theorem c2_chat_content_encoding :
    (∀ s, encodeChatContent (.Text s) = Json.str s) ∧
    (∀ items, encodeChatContent (.Array items) = Json.arr (items.map encodeContentItem)) ∧
    (∀ x, encodeChatContent (.Array [x]) = Json.arr [encodeContentItem x]) ∧
    (∀ x, (encodeChatContent (.Array [x])).isStr = false) :=
  ⟨fun _ => rfl, fun _ => rfl, fun _ => rfl, fun _ => rfl⟩

/-- C3 counterexample: on a 2xx response whose body fails to decode,
the dispatcher returns `TwcError::Http` — exactly the kind a pure
transport failure produces — so the decode-failure error kind is not
distinct from the transport-failure kind. -/
theorem c3_decode_failure_counterexample :
    dispatch (SendOutcome.received 200 (Except.error eDemo) none)
      = (Except.error (TwcError.Http eDemo) : Except TwcError Unit) ∧
    dispatch (SendOutcome.transportErr eDemo)
      = (Except.error (TwcError.Http eDemo) : Except TwcError Unit) ∧
    errKind (dispatch (SendOutcome.received 200 (Except.error eDemo) none) :
        Except TwcError Unit)
      = errKind (dispatch (SendOutcome.transportErr eDemo) : Except TwcError Unit) :=
  ⟨rfl, rfl, rfl⟩

/-- C3 amended: on a 2xx response whose body fails to decode, the call
returns the decode error wrapped in the `Http` kind — the same error
kind used for transport failures, not a distinct one; the HTTP-status
classifier is not invoked (the result is independent of the body text,
and the classifier can never produce the `Http` kind); there is no
retry and no fallback to the error path. -/
theorem c3_decode_failure_behavior {T : Type} (s : Nat) (e : ReqwestError)
    (t1 t2 : Option String) (h : statusIsSuccess s = true) :
    (handle_response s (.error e) t1 : Except TwcError T) = .error (.Http e) ∧
    (handle_response s (.error e) t1 : Except TwcError T)
      = handle_response s (.error e) t2 ∧
    (∀ (st : Nat) (msg : Option String),
      (TwcError.from_status st msg).kind ≠ TwcErrorKind.http) := by
  refine ⟨by simp [handle_response, h], by simp [handle_response, h], ?_⟩
  intro st msg
  simp only [TwcError.from_status]
  split_ifs <;> simp [TwcError.kind]

/-- C3 witness: the amended behaviour at status 200 with a concrete
decode error. -/
theorem c3_decode_failure_behavior_witness :
    (handle_response 200 (Except.error eDemo) none : Except TwcError Unit)
      = .error (.Http eDemo) :=
  (c3_decode_failure_behavior 200 eDemo none (some "x") (by decide)).1

/-- C4 counterexample: the `list_models` and `create_conversation`
requests carry no `x-proxy-source` header at all, refuting that every
endpoint operation attaches the client-identification header. -/
theorem c4_missing_proxy_source_counterexample :
    (list_models_request cfgDemo "agent-1").headers.lookup "x-proxy-source" = none ∧
    (create_conversation_request cfgDemo "agent-1").headers.lookup "x-proxy-source"
      = none :=
  ⟨rfl, rfl⟩

/-- C4 amended: the fixed `x-proxy-source: twcai-rust` header is
attached only by the three agent operations (`call_agent`,
`chat_completions`, `text_completions`); `list_models`,
`get_embed_code` and the conversations/responses operations do not
attach it.  The bearer authorization header is attached exactly when
the operation is authenticated: on every modeled operation except
`get_embed_code`. -/
theorem c4_header_attachment (cfg : ClientConfig) (agent cid rid : String)
    (collapsed : Option Bool) (referer origin : String) :
    ((call_agent_request cfg agent).headers.lookup "x-proxy-source"
        = some "twcai-rust" ∧
      (chat_completions_request cfg agent).headers.lookup "x-proxy-source"
        = some "twcai-rust" ∧
      (text_completions_request cfg agent).headers.lookup "x-proxy-source"
        = some "twcai-rust") ∧
    ((list_models_request cfg agent).headers.lookup "x-proxy-source" = none ∧
      (create_conversation_request cfg agent).headers.lookup "x-proxy-source" = none ∧
      (delete_conversation_request cfg agent cid).headers.lookup "x-proxy-source"
        = none ∧
      (create_response_request cfg agent).headers.lookup "x-proxy-source" = none ∧
      (delete_response_request cfg agent rid).headers.lookup "x-proxy-source" = none ∧
      (get_embed_code_request cfg agent collapsed referer origin).headers.lookup
        "x-proxy-source" = none) ∧
    ((call_agent_request cfg agent).headers.lookup "authorization"
        = some cfg.auth_header ∧
      (chat_completions_request cfg agent).headers.lookup "authorization"
        = some cfg.auth_header ∧
      (text_completions_request cfg agent).headers.lookup "authorization"
        = some cfg.auth_header ∧
      (list_models_request cfg agent).headers.lookup "authorization"
        = some cfg.auth_header ∧
      (create_conversation_request cfg agent).headers.lookup "authorization"
        = some cfg.auth_header ∧
      (delete_conversation_request cfg agent cid).headers.lookup "authorization"
        = some cfg.auth_header ∧
      (create_response_request cfg agent).headers.lookup "authorization"
        = some cfg.auth_header ∧
      (delete_response_request cfg agent rid).headers.lookup "authorization"
        = some cfg.auth_header) ∧
    (get_embed_code_request cfg agent collapsed referer origin).headers.lookup
      "authorization" = none :=
  ⟨⟨rfl, rfl, rfl⟩, ⟨rfl, rfl, rfl, rfl, rfl, rfl⟩,
   ⟨rfl, rfl, rfl, rfl, rfl, rfl, rfl, rfl⟩, rfl⟩

/-- C5 counterexample: a query whose `include` field is `["a", "b"]`
does not yield a query string at all — `serde_urlencoded` cannot
serialize sequence values, so `list_conversation_items` returns an
`InvalidRequest` error instead of a URL. -/
theorem c5_include_list_counterexample :
    errKind (list_conversation_items_url cfgDemo "agent-1" "conv-1"
      (some { after := none, «include» := some ["a", "b"], limit := none,
              order := none }))
      = some TwcErrorKind.invalidRequest := rfl

/-- C5 amended: a query with only `limit = 10` set yields the suffix
`?limit=10`; a query with every field unset yields no `?` appended at
all; but a query whose `include` field is a present list makes
query-string serialization fail (`serde_urlencoded` does not support
sequence values), so the operation returns an `InvalidRequest` error
and no query string representing the values is ever produced. -/
theorem c5_query_string_construction (cfg : ClientConfig) (agent cid : String)
    (q : ListItemsQuery) (hq : q.«include».isSome = true) :
    list_conversation_items_url cfg agent cid
        (some { after := none, «include» := none, limit := some 10, order := none })
      = .ok (cfg.base_url ++ "/api/v1/cloud-ai/agents/" ++ agent
          ++ "/v1/conversations/" ++ cid ++ "/items" ++ "?" ++ "limit=10") ∧
    list_conversation_items_url cfg agent cid (some ListItemsQuery.defaultQuery)
      = .ok (cfg.base_url ++ "/api/v1/cloud-ai/agents/" ++ agent
          ++ "/v1/conversations/" ++ cid ++ "/items") ∧
    errKind (list_conversation_items_url cfg agent cid (some q))
      = some TwcErrorKind.invalidRequest := by
  refine ⟨rfl, rfl, ?_⟩
  simp [list_conversation_items_url, ListItemsQuery.urlencode, hq, errKind,
    TwcError.kind]

/-- C5 witness: the amended behaviour at the claim's concrete
inputs. -/
theorem c5_query_string_construction_witness :
    list_conversation_items_url cfgDemo "agent-1" "conv-1"
        (some { after := none, «include» := none, limit := some 10, order := none })
      = .ok ("https://agent.timeweb.cloud/api/v1/cloud-ai/agents/agent-1"
          ++ "/v1/conversations/conv-1/items?limit=10") ∧
    errKind (list_conversation_items_url cfgDemo "agent-1" "conv-1"
        (some { after := none, «include» := some ["x", "y"], limit := none,
                order := none }))
      = some TwcErrorKind.invalidRequest := by
  have h := c5_query_string_construction cfgDemo "agent-1" "conv-1"
    { after := none, «include» := some ["x", "y"], limit := none, order := none } rfl
  exact ⟨by rw [h.1]; rfl, h.2.2⟩

/-- C6: building a client whose builder has no credential set fails
with a `Configuration` error; `build` is a pure function of the
builder, so the failure happens at construction time with no request
attempted; conversely a successfully constructed client holds exactly
the builder's base address and credential. -/
theorem c6_build_requires_credential (b : ClientBuilder) (c : CloudAIClient) :
    (b.token = none → errKind b.build = some TwcErrorKind.configuration) ∧
    (b.build = .ok c →
      b.base_url = some c.config.base_url ∧ b.token = some c.config.token) := by
  constructor
  · intro ht
    rcases hb : b.base_url with _ | base
    · simp [ClientBuilder.build, hb, errKind, TwcError.kind]
    · simp [ClientBuilder.build, hb, ht, errKind, TwcError.kind]
  · intro hok
    rcases hb : b.base_url with _ | base <;>
      rcases htk : b.token with _ | tok <;>
      simp [ClientBuilder.build, hb, htk] at hok
    rw [← hok]
    exact ⟨rfl, rfl⟩

/-- C6 witness: the default builder (no token) fails with a
configuration error, and a built client echoes the builder's base
address and token. -/
theorem c6_build_requires_credential_witness :
    errKind ClientBuilder.new.build = some TwcErrorKind.configuration ∧
    ((ClientBuilder.new.withToken "secret-token").base_url
        = some "https://agent.timeweb.cloud"
      ∧ (ClientBuilder.new.withToken "secret-token").token = some "secret-token") := by
  refine ⟨(c6_build_requires_credential ClientBuilder.new
    { config := { base_url := "", token := "", timeout_secs := 0 } }).1 rfl, ?_⟩
  exact (c6_build_requires_credential (ClientBuilder.new.withToken "secret-token")
    { config := { base_url := "https://agent.timeweb.cloud", token := "secret-token"
                  timeout_secs := 120 } }).2 rfl

/-- C7: `get_embed_code` returns the raw success body as plain text
for every 2xx status and `delete_response` returns success with no
body decoded for every 2xx-or-204 status; on every non-success status
both return the classified error built with no body message. -/
theorem c7_special_ops_skip_decoding (s : Nat) (body : String) :
    (statusIsSuccess s = true → get_embed_code_handle s body = .ok body) ∧
    (statusIsSuccess s = false →
      get_embed_code_handle s body = .error (TwcError.from_status s none)) ∧
    (statusIsSuccess s = true ∨ s = 204 → delete_response_handle s = .ok ()) ∧
    (statusIsSuccess s = false → s ≠ 204 →
      delete_response_handle s = .error (TwcError.from_status s none)) := by
  refine ⟨fun h => by simp [get_embed_code_handle, h],
          fun h => by simp [get_embed_code_handle, h], fun h => ?_,
          fun h h2 => by simp [delete_response_handle, h, h2]⟩
  rcases h with h | h
  · simp [delete_response_handle, h]
  · subst h; rfl

/-- C7 witness: the special-cased handlers evaluated at 200, 403, 204
and 404. -/
theorem c7_special_ops_skip_decoding_witness :
    get_embed_code_handle 200 "widget-js" = .ok "widget-js" ∧
    get_embed_code_handle 403 "body" = .error TwcError.Forbidden ∧
    delete_response_handle 204 = .ok () ∧
    delete_response_handle 404 = .error (TwcError.NotFound "Resource not found") := by
  have h1 := (c7_special_ops_skip_decoding 200 "widget-js").1 (by decide)
  have h2 := (c7_special_ops_skip_decoding 403 "body").2.1 (by decide)
  have h3 := (c7_special_ops_skip_decoding 204 "x").2.2.1 (Or.inr rfl)
  have h4 := (c7_special_ops_skip_decoding 404 "x").2.2.2 (by decide) (by decide)
  exact ⟨h1, by rw [h2]; rfl, h3, by rw [h4]; rfl⟩

/-- C8: `get_embed_code` never attaches a bearer authorization header;
its only per-request headers are the caller-supplied referer and
origin, and its URL carries the `?collapsed=<b>` suffix exactly when
the `collapsed` argument is present. -/
theorem c8_embed_code_request_shape (cfg : ClientConfig) (agent : String)
    (b : Bool) (referer origin : String) :
    (∀ collapsed,
      (get_embed_code_request cfg agent collapsed referer origin).headers.lookup
        "authorization" = none) ∧
    (∀ collapsed,
      (get_embed_code_request cfg agent collapsed referer origin).headers
        = [("referer", referer), ("origin", origin)]) ∧
    (get_embed_code_request cfg agent none referer origin).url
      = cfg.base_url ++ "/api/v1/cloud-ai/agents/" ++ agent ++ "/embed.js" ∧
    (get_embed_code_request cfg agent (some b) referer origin).url
      = cfg.base_url ++ "/api/v1/cloud-ai/agents/" ++ agent ++ "/embed.js"
        ++ "?collapsed=" ++ (if b then "true" else "false") :=
  ⟨fun _ => rfl, fun _ => rfl, rfl, rfl⟩

/-- C9: for every JSON object that decodes as a `Response`, each field
not modeled by a named `Response` field (`id`, `object`, `created_at`,
`model`, `status`, `usage`) is preserved verbatim in the `extra`
extension bag, so decoding followed by re-encoding reproduces it
unchanged. -/
theorem c9_response_extension_bag (fs : List (String × Json)) (r : Response)
    (k : String) (v : Json)
    (hdec : decodeResponse (Json.obj fs) = some r)
    (hmem : (k, v) ∈ fs) (hk : modeledResponseFields.contains k = false) :
    (k, v) ∈ r.extra ∧ (k, v) ∈ (encodeResponse r).objFields := by
  simp only [decodeResponse, Option.bind_eq_some, Option.some.injEq, bind] at hdec
  obtain ⟨i, ⟨x1, hx1, hi⟩, o, ⟨x2, hx2, ho⟩, cr, ⟨x3, hx3, hcr⟩,
    mo, ⟨x4, hx4, hmo⟩, st, ⟨x5, hx5, hst⟩, us, ⟨x6, hx6, hus⟩, hrec⟩ := hdec
  subst hrec
  have hfilter : (k, v) ∈ fs.filter (fun p => !(modeledResponseFields.contains p.1)) := by
    refine List.mem_filter.mpr ⟨hmem, ?_⟩
    simp only [Bool.not_eq_true']
    exact hk
  exact ⟨hfilter, List.mem_append_right _ hfilter⟩

/-- C9 witness: a concrete response object with the unmodeled field
`output`, preserved through decode and re-encode. -/
theorem c9_response_extension_bag_witness :
    ("output", Json.str "kept") ∈
      (encodeResponse
        { id := "resp_1", object := "response", created_at := 1700000000
          model := "gpt", status := "completed"
          usage := { prompt_tokens := 1, completion_tokens := 2, total_tokens := 3 }
          extra := [("output", Json.str "kept")] }).objFields :=
  (c9_response_extension_bag
    [("id", Json.str "resp_1"), ("object", Json.str "response"),
     ("created_at", Json.num 1700000000), ("model", Json.str "gpt"),
     ("status", Json.str "completed"),
     ("usage", Json.obj [("prompt_tokens", Json.num 1),
       ("completion_tokens", Json.num 2), ("total_tokens", Json.num 3)]),
     ("output", Json.str "kept")]
    { id := "resp_1", object := "response", created_at := 1700000000
      model := "gpt", status := "completed"
      usage := { prompt_tokens := 1, completion_tokens := 2, total_tokens := 3 }
      extra := [("output", Json.str "kept")] }
    "output" (Json.str "kept") rfl (by simp) rfl).2

/-- C10: on every 2xx server reply whose body decodes as a
`Conversation`, `delete_conversation_item` returns that `Conversation`
(the parent conversation object); a serialized `Conversation` carries
no `deleted` field, while the `ConversationDeleted` confirmation
returned by `delete_conversation` always carries one — so a caller of
item deletion cannot observe a `deleted == true` acknowledgement. -/
theorem c10_delete_item_returns_conversation (s : Nat) (body : Json)
    (c : Conversation) (t : Option String)
    (hs : statusIsSuccess s = true) (hd : decodeConversation body = some c) :
    delete_conversation_item_result s body t = .ok c ∧
    (encodeConversation c).objFields.lookup "deleted" = none ∧
    (∀ d : ConversationDeleted,
      (encodeConversationDeleted d).objFields.lookup "deleted"
        = some (Json.bool d.deleted)) := by
  refine ⟨by simp [delete_conversation_item_result, hs, hd], ?_, fun d => rfl⟩
  rcases c with ⟨i, o, cr, _ | m⟩ <;> rfl

/-- C10 witness: a concrete 200 reply whose body is the parent
conversation object. -/
theorem c10_delete_item_returns_conversation_witness :
    delete_conversation_item_result 200
        (Json.obj [("id", Json.str "conv_1"), ("object", Json.str "conversation"),
                   ("created_at", Json.num 1700000000)]) none
      = .ok { id := "conv_1", object := "conversation"
              created_at := 1700000000, metadata := none } ∧
    (encodeConversation
        { id := "conv_1", object := "conversation"
          created_at := 1700000000, metadata := none }).objFields.lookup "deleted"
      = none :=
  ⟨(c10_delete_item_returns_conversation 200
      (Json.obj [("id", Json.str "conv_1"), ("object", Json.str "conversation"),
                 ("created_at", Json.num 1700000000)])
      { id := "conv_1", object := "conversation"
        created_at := 1700000000, metadata := none } none rfl rfl).1,
   (c10_delete_item_returns_conversation 200
      (Json.obj [("id", Json.str "conv_1"), ("object", Json.str "conversation"),
                 ("created_at", Json.num 1700000000)])
      { id := "conv_1", object := "conversation"
        created_at := 1700000000, metadata := none } none rfl rfl).2.1⟩
